import Mathlib

/-!
Shallow embedding of the go6502 emulator core (pda/c64.go): the Via6522
peripheral-chip register file (src/via6522/via6522.go) and the
execution supervisor (src/go6502.go).

Bytes are modelled as `Nat`; all register operations in the source are
bitwise (`&`, `|`, `^` complement), so results stay within a byte
whenever inputs do, and no explicit truncation appears in the source
paths modelled here.  Go's `panic` branches are modelled as `none` of
an `Option` result.
-/

namespace Via6522Model

/-- A peripheral attached to a VIA parallel port
(interface `ParallelPeripheral` in src/via6522/via6522.go).
`pinMask` models `PinMask()`, a constant bitfield; `readVal` models the
value returned by `Read()` (the device's current output-pin state);
`shutdownOk` records whether the device's `Shutdown()` hook succeeds.
In the Go interface `Shutdown()` returns nothing, so its outcome is
invisible to the VIA; the field exists only so that theorems can
quantify over failing peripherals. -/
structure ParallelPeripheral where
  pinMask : Nat
  readVal : Nat
  shutdownOk : Bool
  deriving Repr, DecidableEq

/-- The `Options` struct of src/via6522/via6522.go; both fields only
control diagnostic printing in `handleDataWrite`. -/
structure Options where
  DumpBinary : Bool
  DumpAscii : Bool
  deriving Repr, DecidableEq

/-- The register file and peripheral lists of `Via6522`
(src/via6522/via6522.go). -/
structure Via6522 where
  ora : Nat
  orb : Nat
  ira : Nat
  irb : Nat
  ddra : Nat
  ddrb : Nat
  pcr : Nat
  options : Options
  paPeripherals : List ParallelPeripheral
  pbPeripherals : List ParallelPeripheral
  deriving Repr, DecidableEq

/-- `NewVia6522` (src/via6522/via6522.go): zeroed registers and
empty peripheral lists. -/
def NewVia6522 (o : Options) : Via6522 :=
  { ora := 0, orb := 0, ira := 0, irb := 0, ddra := 0, ddrb := 0, pcr := 0
    options := o, paPeripherals := [], pbPeripherals := [] }

/-- `AttachToPortA` (src/via6522/via6522.go): appends to the port-A list. -/
def Via6522.AttachToPortA (via : Via6522) (p : ParallelPeripheral) : Via6522 :=
  { via with paPeripherals := via.paPeripherals ++ [p] }

/-- `AttachToPortB` (src/via6522/via6522.go): appends to the port-B list. -/
def Via6522.AttachToPortB (via : Via6522) (p : ParallelPeripheral) : Via6522 :=
  { via with pbPeripherals := via.pbPeripherals ++ [p] }

/-- `readMixedInputOutput` (src/via6522/via6522.go):
`(out & ddr) | (in & ^ddr)`.  Go's `^ddr` on a byte is the one's
complement within 8 bits, i.e. `ddr ^^^ 0xFF`. -/
def readMixedInputOutput (input out ddr : Nat) : Nat :=
  (out &&& ddr) ||| (input &&& (ddr ^^^ 0xFF))

/-- The loop in `Read` case 0x0/0x1 (src/via6522/via6522.go): starting
from `0x00`, OR in `p.Read() & p.PinMask()` for each attached
peripheral in attachment order. -/
def composeInput (ps : List ParallelPeripheral) : Nat :=
  ps.foldl (fun acc p => acc ||| (p.readVal &&& p.pinMask)) 0

/-- `Read` (src/via6522/via6522.go): returns the byte read and the
updated chip state; the `default: panic(...)` branch is `none`. -/
def Via6522.Read (via : Via6522) (a : Nat) : Option (Nat × Via6522) :=
  if a = 0x0 then
    let irb := composeInput via.pbPeripherals
    some (readMixedInputOutput irb via.orb via.ddrb, { via with irb := irb })
  else if a = 0x1 then
    let ira := composeInput via.paPeripherals
    some (readMixedInputOutput ira via.ora via.ddra, { via with ira := ira })
  else if a = 0x2 then some (via.ddrb, via)
  else if a = 0x3 then some (via.ddra, via)
  else if a = 0xC then some (via.pcr, via)
  else none

/-- `handleDataWrite` (src/via6522/via6522.go): the bytes delivered to
each peripheral's `Write` sink, in attachment order (`data` arrives
already masked by the port's DDR; each delivery is further masked by
the peripheral's own pin mask).  The `DumpBinary`/`DumpAscii`
diagnostics only print and touch no state. -/
def handleDataWrite (data : Nat) (peripherals : List ParallelPeripheral) : List Nat :=
  peripherals.map (fun p => data &&& p.pinMask)

/-- `Write` (src/via6522/via6522.go): returns the updated chip state
and the list of bytes delivered to the affected port's peripherals;
the `default: panic(...)` branch is `none`. -/
def Via6522.Write (via : Via6522) (a : Nat) (data : Nat) :
    Option (Via6522 × List Nat) :=
  if a = 0x0 then
    some ({ via with orb := data },
      handleDataWrite (data &&& via.ddrb) via.pbPeripherals)
  else if a = 0x1 then
    some ({ via with ora := data },
      handleDataWrite (data &&& via.ddra) via.paPeripherals)
  else if a = 0x2 then some ({ via with ddrb := data }, [])
  else if a = 0x3 then some ({ via with ddra := data }, [])
  else if a = 0xC then some ({ via with pcr := data }, [])
  else none

/-- `Reset` (src/via6522/via6522.go): zeroes the seven registers,
touches nothing else. -/
def Via6522.Reset (via : Via6522) : Via6522 :=
  { via with ora := 0, orb := 0, ira := 0, irb := 0
             ddra := 0, ddrb := 0, pcr := 0 }

/-- One peripheral-shutdown invocation, as the VIA's `Shutdown` loop
performs it: the hook of peripheral `p` runs, with outcome `ok`. -/
inductive ShutdownEvent where
  | invoke (p : ParallelPeripheral) (ok : Bool)
  deriving Repr, DecidableEq

/-- `Shutdown` (src/via6522/via6522.go): loops over the port-A
peripherals and then the port-B peripherals, invoking each hook
unconditionally (the Go loop body never inspects an outcome and never
breaks).  The result is the trace of invocations in order. -/
def Via6522.Shutdown (via : Via6522) : List ShutdownEvent :=
  let evs := via.paPeripherals.foldl
    (fun evs p => evs ++ [ShutdownEvent.invoke p p.shutdownOk]) []
  via.pbPeripherals.foldl
    (fun evs p => evs ++ [ShutdownEvent.invoke p p.shutdownOk]) evs

/-- `control1Mode` (src/via6522/via6522.go). -/
def Via6522.control1Mode (via : Via6522) (portOffset : Nat) : Nat :=
  (via.pcr >>> portOffset) &&& 1

/-- `control2Mode` (src/via6522/via6522.go). -/
def Via6522.control2Mode (via : Via6522) (portOffset : Nat) : Nat :=
  (via.pcr >>> (portOffset + 1)) &&& 0x7

/-- The value observed by writing `data` to register `a` and then
reading register `a` back (composition of `Write` and `Read`). -/
def writeThenReadValue (via : Via6522) (a : Nat) (data : Nat) : Option Nat :=
  (via.Write a data).bind fun wr => (wr.1.Read a).map Prod.fst

/-- The spec's mixed-direction composition formula, written from the
spec's words: `result = (outputRegister & directionRegister) |
(freshlyComposedInput & ~directionRegister)`, with `~` the byte-wise
complement. -/
def specCompose (input out ddr : Nat) : Nat :=
  (out &&& ddr) ||| (input &&& (0xFF ^^^ ddr))

/-- A freshly constructed chip with no peripherals and DDRB set to
0x5A, for evaluating the no-peripheral write/read round trip. -/
def viaNoPeriph : Via6522 :=
  { NewVia6522 { DumpBinary := false, DumpAscii := false } with ddrb := 0x5A }

/-- A peripheral wired to the low nibble only (pin mask 0x0F). -/
def maskedPeriph : ParallelPeripheral :=
  { pinMask := 0x0F, readVal := 0, shutdownOk := true }

/-- A chip with DDRB = 0xFF (all lines output) and the low-nibble
peripheral attached to port B. -/
def viaWithMasked : Via6522 :=
  { NewVia6522 { DumpBinary := false, DumpAscii := false } with
      ddrb := 0xFF, pbPeripherals := [maskedPeriph] }

end Via6522Model

namespace Go6502Main

open Via6522Model

/-- Which of the two termination sources of the supervisor's `select`
(src/go6502.go) fires first: either the CPU goroutine publishes an
exit code on `exitChan`, or an interrupt signal arrives on `sigChan`. -/
inductive TermEvent where
  | procExit (code : Int)
  | interrupt
  deriving Repr, DecidableEq

/-- The command-line options of src/go6502.go that steer the
supervisor's control flow: `options.ViaSsd1306` and `options.Debug`. -/
structure MainOptions where
  viaSsd1306 : Bool
  debug : Bool
  deriving Repr, DecidableEq

/-- Observable actions performed by `mainReturningStatus`
(src/go6502.go), in execution order. -/
inductive MainAction where
  | attachSsd1306PortB
  | resetVia
  | printSignal
  | printCpuState
  | dumpRam (filename : String)
  | closeSsd1306
  | closeDebugger
  deriving Repr, DecidableEq

/-- `mainReturningStatus` (src/go6502.go), as a function from the
options and the winning termination event to the returned exit status
and the ordered trace of observable actions.  The two `defer`red
`Close` calls (ssd1306 at line 33, debugger at line 48) run after the
`return`, in last-in-first-out order, on every return path of the
function. -/
def mainReturningStatus (opts : MainOptions) (ev : TermEvent) :
    Int × List MainAction :=
  let setup :=
    (if opts.viaSsd1306 then [MainAction.attachSsd1306PortB] else [])
      ++ [MainAction.resetVia]
  let branch : Int × List MainAction :=
    match ev with
    | TermEvent.procExit code => (code, [])
    | TermEvent.interrupt => (1, [MainAction.printSignal])
  let exitStatus := branch.1
  let postMortem :=
    if exitStatus ≠ 0 then [MainAction.printCpuState, MainAction.dumpRam "core"]
    else []
  let deferred :=
    (if opts.debug then [MainAction.closeDebugger] else [])
      ++ (if opts.viaSsd1306 then [MainAction.closeSsd1306] else [])
  (exitStatus, setup ++ branch.2 ++ postMortem ++ deferred)

end Go6502Main

namespace Via6522Model

/-- Claim C1: for every input byte I, output-register byte O and
direction byte D, `readMixedInputOutput` equals the spec formula
`(O & D) | (I & ~D)`; for D = 0x00 the result is independent of O
(pure input) and for D = 0xFF the result is independent of I
(pure output). -/
theorem readMixedInputOutput_spec :
    (∀ i o d : Nat, readMixedInputOutput i o d = specCompose i o d) ∧
    (∀ i o o' : Nat, readMixedInputOutput i o 0x00 = readMixedInputOutput i o' 0x00) ∧
    (∀ i i' o : Nat, readMixedInputOutput i o 0xFF = readMixedInputOutput i' o 0xFF) := by
  refine ⟨fun i o d => ?_, fun i o o' => ?_, fun i i' o => ?_⟩
  · simp [readMixedInputOutput, specCompose, Nat.xor_comm]
  · simp [readMixedInputOutput]
  · simp [readMixedInputOutput]

/-- Claim C2: reading register 0x0 (resp. 0x1) recomputes the input
register as the OR over port-B (resp. port-A) peripherals of
`Read() & PinMask()` and returns the mixed composition with ORB/DDRB
(resp. ORA/DDRA); with no peripherals attached, writing O and reading
back the same register yields exactly `O & D` for every direction
byte D. -/
theorem read_recomputes_input (via : Via6522) :
    (via.Read 0x0 = some
      (readMixedInputOutput (composeInput via.pbPeripherals) via.orb via.ddrb,
       { via with irb := composeInput via.pbPeripherals })) ∧
    (via.Read 0x1 = some
      (readMixedInputOutput (composeInput via.paPeripherals) via.ora via.ddra,
       { via with ira := composeInput via.paPeripherals })) ∧
    (∀ o, via.pbPeripherals = [] →
      writeThenReadValue via 0x0 o = some (o &&& via.ddrb)) ∧
    (∀ o, via.paPeripherals = [] →
      writeThenReadValue via 0x1 o = some (o &&& via.ddra)) := by
  refine ⟨rfl, rfl, fun o h => ?_, fun o h => ?_⟩ <;>
    simp [writeThenReadValue, Via6522.Write, Via6522.Read, h,
      composeInput, readMixedInputOutput]

/-- Witness for C2: on a chip with no peripherals and DDRB = 0x5A,
writing 0xFF to register 0x0 and reading it back yields
0xFF &&& 0x5A = 0x5A. -/
theorem read_recomputes_input_witness :
    viaNoPeriph.pbPeripherals = [] ∧
    writeThenReadValue viaNoPeriph 0x0 0xFF = some 0x5A := by
  refine ⟨rfl, ?_⟩
  have h := (read_recomputes_input viaNoPeriph).2.2.1 0xFF rfl
  exact h.trans (by decide)

/-- Claim C3: writing to register 0x0 (resp. 0x1) stores the byte into
ORB (resp. ORA) and delivers `(data & DDRB) & PinMask` (resp. with
DDRA) to every peripheral of that port in attachment order; writing
0xFF with DDR = 0xFF to a port holding a peripheral of pin mask 0x0F
delivers exactly 0x0F to its write sink. -/
theorem write_fans_out (via : Via6522) (data : Nat) :
    (via.Write 0x0 data = some ({ via with orb := data },
      via.pbPeripherals.map fun p => (data &&& via.ddrb) &&& p.pinMask)) ∧
    (via.Write 0x1 data = some ({ via with ora := data },
      via.paPeripherals.map fun p => (data &&& via.ddra) &&& p.pinMask)) ∧
    (viaWithMasked.Write 0x0 0xFF =
      some ({ viaWithMasked with orb := 0xFF }, [0x0F])) := by
  refine ⟨rfl, rfl, by decide⟩

/-- Claim C4: `Reset` zeroes ORA, ORB, IRA, IRB, DDRA, DDRB and PCR
and leaves both attached-peripheral lists untouched. -/
theorem reset_zeroes_registers (via : Via6522) :
    via.Reset.ora = 0 ∧ via.Reset.orb = 0 ∧
    via.Reset.ira = 0 ∧ via.Reset.irb = 0 ∧
    via.Reset.ddra = 0 ∧ via.Reset.ddrb = 0 ∧ via.Reset.pcr = 0 ∧
    via.Reset.paPeripherals = via.paPeripherals ∧
    via.Reset.pbPeripherals = via.pbPeripherals := by
  simp [Via6522.Reset]

/-- Claim C5: for every register address outside
{0x0, 0x1, 0x2, 0x3, 0xC}, both `Read` and `Write` take the fatal
(`panic`) branch, modelled as `none`: they never silently succeed. -/
theorem unhandled_register_faults (via : Via6522) (a : Nat) (data : Nat)
    (h : a ∉ [0x0, 0x1, 0x2, 0x3, 0xC]) :
    via.Read a = none ∧ via.Write a data = none := by
  simp only [List.mem_cons, List.not_mem_nil, or_false, not_or] at h
  obtain ⟨h0, h1, h2, h3, hc⟩ := h
  simp [Via6522.Read, Via6522.Write, h0, h1, h2, h3, hc]

/-- Witness for C5: address 0xD is unhandled, and both access
directions fault there on a concrete chip state. -/
theorem unhandled_register_faults_witness :
    ((0xD : Nat) ∉ [0x0, 0x1, 0x2, 0x3, 0xC]) ∧
    viaNoPeriph.Read 0xD = none ∧ viaNoPeriph.Write 0xD 0 = none :=
  ⟨by decide,
   (unhandled_register_faults viaNoPeriph 0xD 0 (by decide)).1,
   (unhandled_register_faults viaNoPeriph 0xD 0 (by decide)).2⟩

/-- Helper: folding event-appends over a peripheral list produces the
initial trace followed by one mapped event per list element. -/
theorem foldl_push_eq_append (f : ParallelPeripheral → ShutdownEvent)
    (l : List ParallelPeripheral) (init : List ShutdownEvent) :
    l.foldl (fun evs p => evs ++ [f p]) init = init ++ l.map f := by
  induction l generalizing init with
  | nil => simp
  | cons p t ih => simp [ih]

/-- Claim C8: `Shutdown` invokes every attached peripheral's hook
exactly once, all of port A before any of port B, each port in
attachment order; since the loop never inspects an outcome, a failing
hook (`shutdownOk = false`) never prevents the remaining invocations
(the trace shape is independent of every `shutdownOk` flag). -/
theorem shutdown_invokes_all (via : Via6522) :
    via.Shutdown =
      via.paPeripherals.map (fun p => ShutdownEvent.invoke p p.shutdownOk) ++
      via.pbPeripherals.map (fun p => ShutdownEvent.invoke p p.shutdownOk) ∧
    via.Shutdown.length =
      via.paPeripherals.length + via.pbPeripherals.length := by
  have h : via.Shutdown =
      via.paPeripherals.map (fun p => ShutdownEvent.invoke p p.shutdownOk) ++
      via.pbPeripherals.map (fun p => ShutdownEvent.invoke p p.shutdownOk) := by
    simp [Via6522.Shutdown, foldl_push_eq_append]
  exact ⟨h, by simp [h]⟩

/-- Claim C10: reading 0x2, 0x3 or 0xC leaves the chip state
unchanged; reading 0x0 (resp. 0x1) updates only IRB (resp. IRA) to the
raw OR-composition of that port's peripheral contributions, leaving
every other register and both peripheral lists untouched. -/
theorem read_frame_effects (via : Via6522) :
    ((via.Read 0x2).map Prod.snd = some via) ∧
    ((via.Read 0x3).map Prod.snd = some via) ∧
    ((via.Read 0xC).map Prod.snd = some via) ∧
    ((via.Read 0x0).map Prod.snd =
      some { via with irb := composeInput via.pbPeripherals }) ∧
    ((via.Read 0x1).map Prod.snd =
      some { via with ira := composeInput via.paPeripherals }) := by
  refine ⟨rfl, rfl, rfl, rfl, rfl⟩

end Via6522Model

namespace Go6502Main

/-- Claim C6: the termination race yields exit status 0 exactly when
the processor publishes exit code 0; an interrupt forces the sentinel
status 1; a processor-published code is returned unchanged. -/
theorem exit_status_race :
    (∀ opts c, (mainReturningStatus opts (TermEvent.procExit c)).1 = c) ∧
    (∀ opts, (mainReturningStatus opts TermEvent.interrupt).1 = 1) ∧
    (∀ opts ev, (mainReturningStatus opts ev).1 = 0 ↔ ev = TermEvent.procExit 0) := by
  refine ⟨fun opts c => rfl, fun opts => rfl, fun opts ev => ?_⟩
  cases ev with
  | procExit c => simp [mainReturningStatus]
  | interrupt => simp [mainReturningStatus]

/-- Claim C7: the supervisor prints the CPU state and dumps RAM to the
file "core" exactly when the exit status is non-zero; on a clean
(zero) status neither action appears in the trace. -/
theorem post_mortem_iff_abnormal (opts : MainOptions) (ev : TermEvent) :
    (MainAction.printCpuState ∈ (mainReturningStatus opts ev).2 ↔
      (mainReturningStatus opts ev).1 ≠ 0) ∧
    (MainAction.dumpRam "core" ∈ (mainReturningStatus opts ev).2 ↔
      (mainReturningStatus opts ev).1 ≠ 0) := by
  rcases opts with ⟨vs, db⟩
  cases ev with
  | procExit c =>
      by_cases hc : c = 0 <;>
        cases vs <;> cases db <;> simp [mainReturningStatus, hc]
  | interrupt =>
      cases vs <;> cases db <;> simp [mainReturningStatus]

/-- Claim C9: when the display peripheral is attached to the VIA, its
teardown (`Close`, registered via `defer`) appears in the supervisor's
trace on every exit path — clean processor exit, non-zero processor
exit and interrupt alike. -/
theorem peripheral_teardown_every_path (opts : MainOptions) (ev : TermEvent)
    (h : opts.viaSsd1306 = true) :
    MainAction.closeSsd1306 ∈ (mainReturningStatus opts ev).2 := by
  rcases opts with ⟨vs, db⟩
  cases ev <;> cases db <;> simp_all [mainReturningStatus]

/-- Witness for C9: with the display attached and the processor
exiting cleanly (status 0), the teardown still runs. -/
theorem peripheral_teardown_every_path_witness :
    (MainOptions.mk true false).viaSsd1306 = true ∧
    MainAction.closeSsd1306 ∈
      (mainReturningStatus (MainOptions.mk true false) (TermEvent.procExit 0)).2 :=
  ⟨rfl, peripheral_teardown_every_path (MainOptions.mk true false)
    (TermEvent.procExit 0) rfl⟩

end Go6502Main
